import Mathlib

/-!
Verification of the data-state engine (`src/app_logic.py`, class `AppLogic`)

Shallow embedding of the engine that owns the canonical tabular dataset,
the bounded undo/redo history, and the derived filtered/sorted view.

Modelling conventions:
* A cell value (`Value`) is a string, a number, or null (pandas `NaN`).
  Numbers are modelled as exact decimals (`Dec`, a normalized
  mantissa-and-exponent pair): every numeric value appearing in the claims
  is an exact decimal, and the only numeric operations the engine performs
  are comparison and decimal parsing/printing.
* A dataset (`Df`) is the pandas `DataFrame`: an ordered column-name list
  plus ordered rows; each row is the list of its cell values in column order.
* JSON serialization (`DataFrame.to_json(orient='split')` /
  `pd.read_json(..., orient='split')`) is modelled as injective packaging of
  the dataset into a `Token` with `deserialize` its inverse (the spec's §4.1
  requires a lossless, equality-reflecting round trip).
* Python lists used as stacks (`append` at the end, `pop()` from the end,
  `pop(0)` to evict the oldest entry at the front) are modelled as Lean lists
  with the MOST RECENT entry at the HEAD: python `append` is `cons`,
  python `pop()` is taking the head, python `pop(0)` is `dropLast`.
* `pandas.Series.str.contains` is called by the engine only with the
  user-typed filter text; the claims use purely literal patterns, which the
  regex engine matches exactly as substring containment, the semantics
  embedded here.
* `astype(str)` renders `NaN` as the string `"nan"` and a float by its
  `repr`; both are embedded in `strOfValue`.
-/

/-- An exact decimal number `num / 10 ^ exp`, kept normalized (`num` not a
multiple of ten unless `exp = 0`) so that equal numbers are equal terms. -/
structure Dec where
  num : Int
  exp : Nat
deriving DecidableEq, Repr

/-- Normalization for `Dec`: strip factors of ten from the mantissa into
the exponent (`fuel` bounds the iterations; `exp` strips suffice). -/
def stripTens : Nat → Int → Nat → Int × Nat
  | 0, n, e => (n, e)
  | _ + 1, n, 0 => (n, 0)
  | fuel + 1, n, e + 1 =>
    if n == 0 then (0, 0)
    else if n % 10 == 0 then stripTens fuel (n / 10) e
    else (n, e + 1)

/-- Build the normalized decimal `n / 10 ^ e`. -/
def mkDec (n : Int) (e : Nat) : Dec :=
  let p := stripTens e n e
  ⟨p.1, p.2⟩

/-- Comparison of exact decimals by cross-multiplication. -/
def decLe (a b : Dec) : Bool :=
  decide (a.num * (10 : Int) ^ b.exp ≤ b.num * (10 : Int) ^ a.exp)

/-- A scalar cell value of the tabular dataset: string, number, or
missing/null (pandas `NaN`).  Numbers are exact decimals (see header). -/
inductive Value where
  | vStr : String → Value
  | vNum : Dec → Value
  | vNull : Value
deriving DecidableEq, Repr

/-- A tabular dataset (pandas `DataFrame`): ordered column names plus ordered
rows, each row holding its cell values in column order. -/
structure Df where
  cols : List String
  rows : List (List Value)
deriving DecidableEq, Repr

/-- Test `startsWithList l p`: the list `p` is an initial segment of `l`. -/
def startsWithList : List Char → List Char → Bool
  | _, [] => true
  | [], _ :: _ => false
  | a :: as, b :: bs => a == b && startsWithList as bs

/-- Test `containsSubList pat hay`: `pat` occurs as a contiguous sublist of
`hay`.  This is python's `pat in hay` on strings. -/
def containsSubList (pat : List Char) : List Char → Bool
  | [] => pat.isEmpty
  | c :: t => startsWithList (c :: t) pat || containsSubList pat t

/-- Python's substring test `pat in hay` (also the semantics of
`Series.str.contains` on the literal patterns used by the claims). -/
def strContainsSub (hay pat : String) : Bool :=
  containsSubList pat.data hay.data

/-- Digits to the natural number they denote (most significant first). -/
def digitsToNat (ds : List Char) : Nat :=
  ds.foldl (fun n c => n * 10 + (c.toNat - 48)) 0

/-- Whitespace as stripped by python `str.strip()` (the claims only ever
carry ASCII whitespace). -/
def isSpaceChar (c : Char) : Bool :=
  c == ' ' || c == '\t' || c == '\n' || c == '\r'

/-- Strip leading and trailing whitespace from a character list. -/
def trimList (cs : List Char) : List Char :=
  ((cs.dropWhile isSpaceChar).reverse.dropWhile isSpaceChar).reverse

/-- Python `str.strip()`. -/
def trimStr (s : String) : String := ⟨trimList s.data⟩

/-- Python `str.lower()` (the claims only ever lower-case ASCII). -/
def lowerStr (s : String) : String := ⟨s.data.map Char.toLower⟩

/-- Python `repr` of a float, for floats that are exact decimals (the only
numbers the engine ever holds): sign, integer part, a dot, and the
(zero-padded) fractional digits — `.0` when the number is integral, e.g.
`repr(25.0) = "25.0"` and `repr(75.99) = "75.99"`. -/
def decRepr (d : Dec) : String :=
  let sgn := if d.num < 0 then "-" else ""
  let n := d.num.natAbs
  let pow := 10 ^ d.exp
  if d.exp == 0 then sgn ++ toString n ++ ".0"
  else
    let fr := toString (n % pow)
    sgn ++ toString (n / pow) ++ "." ++
      ⟨List.replicate (d.exp - fr.data.length) '0' ++ fr.data⟩

/-- Python `astype(str)` / `str(value)` on one cell: a string is itself, `NaN`
renders as `"nan"`, a float by its `repr`. -/
def strOfValue : Value → String
  | .vStr s => s
  | .vNum q => decRepr q
  | .vNull => "nan"

/-- Model of `pd.to_numeric(..., errors='coerce')` on a string: optional sign,
digits, optional fractional part; whitespace-trimmed; `none` (NaN) when the
string is not a plain decimal numeral. -/
def parseDecimal (s : String) : Option Dec :=
  let cs := trimList s.data
  let (neg, cs1) :=
    match cs with
    | '-' :: t => (true, t)
    | '+' :: t => (false, t)
    | _ => (false, cs)
  let ip := cs1.takeWhile (·.isDigit)
  let rest := cs1.drop ip.length
  match rest with
  | [] =>
    if ip.isEmpty then none
    else
      some (mkDec (if neg then -(digitsToNat ip : Int) else (digitsToNat ip : Int)) 0)
  | '.' :: fp =>
    if fp.all (·.isDigit) && !(ip.isEmpty && fp.isEmpty) then
      let m : Int := digitsToNat (ip ++ fp)
      some (mkDec (if neg then -m else m) fp.length)
    else none
  | _ => none

/-- Model of `pd.to_numeric(..., errors='coerce')` on one cell: numbers pass
through, `NaN` stays `NaN`, strings are parsed, anything unparsable
becomes `NaN` (`none`). -/
def toNumeric : Value → Option Dec
  | .vNum q => some q
  | .vStr s => parseDecimal s
  | .vNull => none

/-- The coerced cell written back into the sort column by
`temp_df[column_to_sort] = pd.to_numeric(temp_df[column_to_sort],
errors='coerce')`: a valid number, or `NaN`. -/
def toNumericValue (v : Value) : Value :=
  match toNumeric v with
  | some q => Value.vNum q
  | none => Value.vNull

/-- Python truthiness of an optional string field (`None` and `""` are
falsy). -/
def truthyOpt : Option String → Bool
  | none => false
  | some s => !s.data.isEmpty

/-- The cell of `row` in column `c`, given the column-name list `cols`
(the row is aligned with `cols`); missing lookups yield null. -/
def cellVal (cols : List String) (row : List Value) (c : String) : Value :=
  match cols.findIdx? (· == c) with
  | some i => row.getD i Value.vNull
  | none => Value.vNull

/-- The filter predicate of `apply_filters_and_sort` (app_logic.py:126-133)
for one row: with a truthy filter column that exists in the dataset, test
that column's cell; otherwise test every cell of the row.  A cell matches
when its `astype(str)` form, lower-cased, contains the search term. -/
def rowMatches (cols : List String) (fcol : Option String) (term : String)
    (row : List Value) : Bool :=
  if truthyOpt fcol && cols.contains (fcol.getD "") then
    strContainsSub (lowerStr (strOfValue (cellVal cols row (fcol.getD "")))) term
  else
    row.any (fun v => strContainsSub (lowerStr (strOfValue v)) term)

/-- The filter step (app_logic.py:122-133): only when the active filter
text is truthy and still non-empty after `strip().lower()` are the rows
filtered by `rowMatches`. -/
def filteredRows (df : Df) (fcol : Option String) (ftext : String) :
    List (List Value) :=
  if !ftext.data.isEmpty then
    let term := lowerStr (trimStr ftext)
    if !term.data.isEmpty then df.rows.filter (rowMatches df.cols fcol term)
    else df.rows
  else df.rows

/-- Stable ordered insertion for the sorting model. -/
def insertSorted (le : α → α → Bool) (a : α) : List α → List α
  | [] => [a]
  | b :: bs => if le a b then a :: b :: bs else b :: insertSorted le a bs

/-- Stable insertion sort (comparison sort model of
`DataFrame.sort_values`; it agrees with the source's quicksort whenever the
keys are pairwise distinct — the source's default `kind='quicksort'` leaves
the order of equal keys unspecified, see the C2 discussion). -/
def sortByKey (le : α → α → Bool) : List α → List α
  | [] => []
  | x :: xs => insertSorted le x (sortByKey le xs)

/-- Numeric key comparison with `na_position='last'`: `NaN` (`none`) sorts
after every valid number regardless of direction. -/
def numKeyLe (asc : Bool) (a b : Option Dec) : Bool :=
  match a, b with
  | none, none => true
  | none, some _ => false
  | some _, none => true
  | some x, some y => if asc then decLe x y else decLe y x

/-- Text key comparison: the key function `col.astype(str).str.lower()`
leaves no `NaN` behind (null became the string `"nan"`), so this is plain
string comparison in the requested direction. -/
def strKeyLe (asc : Bool) (a b : String) : Bool :=
  if asc then
    match compare a b with
    | Ordering.gt => false
    | _ => true
  else
    match compare b a with
    | Ordering.gt => false
    | _ => true

/-- The numeric key of an already-coerced sort-column cell. -/
def numValKey : Value → Option Dec
  | .vNum q => some q
  | _ => none

/-- Replace the cell of `row` in column `c` by its numeric coercion
(`temp_df[column_to_sort] = pd.to_numeric(...)`, app_logic.py:151). -/
def coerceCol (cols : List String) (c : String) (row : List Value) :
    List Value :=
  match cols.findIdx? (· == c) with
  | some i => row.set i (toNumericValue (row.getD i Value.vNull))
  | none => row

/-- The sort step (app_logic.py:136-156): only when the active sort column
is truthy and exists.  `'za'`/`'num_desc'` sort descending, the numeric
modes first overwrite the sort column with its numeric coercion and sort
with `NaN` last; the text modes sort by the lower-cased string form. -/
def sortStep (cols : List String) (scol stype : Option String)
    (rows : List (List Value)) : List (List Value) :=
  if truthyOpt scol && cols.contains (scol.getD "") then
    let c := scol.getD ""
    let asc := !(stype == some "za" || stype == some "num_desc")
    if stype == some "num_asc" || stype == some "num_desc" then
      let coerced := rows.map (coerceCol cols c)
      sortByKey
        (fun r1 r2 =>
          numKeyLe asc (numValKey (cellVal cols r1 c))
            (numValKey (cellVal cols r2 c)))
        coerced
    else
      sortByKey
        (fun r1 r2 =>
          strKeyLe asc (lowerStr (strOfValue (cellVal cols r1 c)))
            (lowerStr (strOfValue (cellVal cols r2 c))))
        rows
  else rows

/-- The view computation of `apply_filters_and_sort`
(app_logic.py:115-158): an empty dataset yields an empty view keeping the
header; otherwise filter then sort a copy of the canonical rows. -/
def computeView (df : Df) (fcol : Option String) (ftext : String)
    (scol stype : Option String) : Df :=
  if df.rows.isEmpty || df.cols.isEmpty then { cols := df.cols, rows := [] }
  else { cols := df.cols, rows := sortStep df.cols scol stype (filteredRows df fcol ftext) }

/-- A serialized snapshot: the JSON string
`df.to_json(orient='split', date_format='iso')`, modelled as injective
packaging of the dataset (the spec's §4.1 lossless round trip). -/
structure Token where
  df : Df
deriving DecidableEq, Repr

/-- Model of `df.to_json(orient='split', date_format='iso')`. -/
def serializeDf (d : Df) : Token := ⟨d⟩

/-- Model of `pd.read_json(token, orient='split')`. -/
def deserialize (t : Token) : Df := t.df

/-- The full engine state of class `AppLogic`: canonical dataset `df`, the
current derived view, both history stacks (most recent FIRST — python keeps
the most recent at the END of the list), and the four active criteria.
`filter_col`, `sort_col`, `sort_type` start as python `None` (here `none`);
`filter_text` is always a string. -/
structure AppState where
  df : Df
  view : Df
  undo_stack : List Token
  redo_stack : List Token
  filter_col : Option String
  filter_text : String
  sort_col : Option String
  sort_type : Option String
deriving DecidableEq, Repr

/-- Field `max_undo_steps` of `AppLogic` (app_logic.py:22). -/
def max_undo_steps : Nat := 50

/-- The state built by `AppLogic.__init__`. -/
def initState : AppState :=
  { df := ⟨[], []⟩, view := ⟨[], []⟩, undo_stack := [], redo_stack := [],
    filter_col := none, filter_text := "", sort_col := none, sort_type := none }

/-- Method `AppLogic.push_state` (app_logic.py:52-71), parameterized by the
serializer so that a serialization failure (`to_json` raising) is
representable as `none`: the whole body sits in a `try` whose handler only
logs, so a failure returns the state unchanged.  On success: append only
when the token differs from the top of the undo stack; then clear the redo
stack and evict the oldest entry (python `pop(0)`, here `dropLast`) when
the stack exceeds `max_undo_steps`. -/
def pushStateWith (ser : Df → Option Token) (s : AppState) : AppState :=
  match ser s.df with
  | none => s
  | some t =>
    if s.undo_stack.head? ≠ some t then
      let u := t :: s.undo_stack
      { s with
        undo_stack := if u.length > max_undo_steps then u.dropLast else u,
        redo_stack := [] }
    else s

/-- Method `AppLogic.push_state` with the actual (total) JSON serializer. -/
def push_state (s : AppState) : AppState :=
  pushStateWith (fun d => some (serializeDf d)) s

/-- Method `AppLogic.apply_filters_and_sort` (app_logic.py:105-158): update every
explicitly supplied criterion (python `is not None`), then recompute the
view from the canonical dataset under the updated criteria. -/
def apply_filters_and_sort (fc ft sc st : Option String) (s : AppState) :
    AppState :=
  let fcol := match fc with | none => s.filter_col | some v => some v
  let ftext := match ft with | none => s.filter_text | some v => v
  let scol := match sc with | none => s.sort_col | some v => some v
  let stype := match st with | none => s.sort_type | some v => some v
  { s with
    filter_col := fcol, filter_text := ftext,
    sort_col := scol, sort_type := stype,
    view := computeView s.df fcol ftext scol stype }

/-- Method `AppLogic.undo` (app_logic.py:73-88): with more than one undo entry,
move the top to the redo stack, restore the canonical dataset from the new
top, recompute the view (an argumentless `apply_filters_and_sort()` call:
criteria are untouched), and report success; otherwise a failing no-op. -/
def undo (s : AppState) : AppState × Bool :=
  match s.undo_stack with
  | cur :: prev :: rest =>
    ({ s with
        df := deserialize prev,
        undo_stack := prev :: rest,
        redo_stack := cur :: s.redo_stack,
        view := computeView (deserialize prev) s.filter_col s.filter_text
          s.sort_col s.sort_type }, true)
  | _ => (s, false)

/-- Method `AppLogic.redo` (app_logic.py:90-103): with a non-empty redo stack,
move its top back onto the undo stack, restore the canonical dataset from
it, recompute the view under the unchanged criteria, and report success;
otherwise a failing no-op. -/
def redo (s : AppState) : AppState × Bool :=
  match s.redo_stack with
  | t :: rest =>
    ({ s with
        df := deserialize t,
        undo_stack := t :: s.undo_stack,
        redo_stack := rest,
        view := computeView (deserialize t) s.filter_col s.filter_text
          s.sort_col s.sort_type }, true)
  | [] => (s, false)

/-- Method `AppLogic.load_new_sheet` (app_logic.py:30-46): deep-copy the input as
the canonical dataset, clear both stacks and all criteria, push the
initial snapshot, recompute the view. -/
def load_new_sheet (d : Df) (s : AppState) : AppState :=
  let s1 := { s with
    df := d, undo_stack := [], redo_stack := [],
    filter_col := none, filter_text := "", sort_col := none,
    sort_type := none }
  apply_filters_and_sort none none none none (push_state s1)

/-- Method `AppLogic.reset_filters_and_sort` (app_logic.py:160-162): apply with
explicit empty strings for all four criteria. -/
def reset_filters_and_sort (s : AppState) : AppState :=
  apply_filters_and_sort (some "") (some "") (some "") (some "") s

/-- Iterate `undo` a number of times (discarding the success flags). -/
def undoN : Nat → AppState → AppState
  | 0, s => s
  | n + 1, s => undoN n (undo s).1

/-- Iterate `redo` a number of times (discarding the success flags). -/
def redoN : Nat → AppState → AppState
  | 0, s => s
  | n + 1, s => redoN n (redo s).1

/-- The engine states reachable from a `load_new_sheet`, closed under the
engine operations and under the presentation layer's direct write into the
canonical dataset (`self.logic.df.loc[...] = new_text`,
main_window.py:287, performed after its `push_state()` call). -/
inductive Reachable : AppState → Prop
  | load (d : Df) (s : AppState) : Reachable (load_new_sheet d s)
  | push {s : AppState} : Reachable s → Reachable (push_state s)
  | undoStep {s : AppState} : Reachable s → Reachable (undo s).1
  | redoStep {s : AppState} : Reachable s → Reachable (redo s).1
  | apply {s : AppState} (fc ft sc st : Option String) :
      Reachable s → Reachable (apply_filters_and_sort fc ft sc st s)
  | reset {s : AppState} : Reachable s → Reachable (reset_filters_and_sort s)
  | mutate {s : AppState} (d : Df) : Reachable s → Reachable { s with df := d }

/-- The state with its view freshly recomputed from the canonical dataset
under the current criteria (the effect of an argumentless
`apply_filters_and_sort()` call). -/
def refreshView (s : AppState) : AppState :=
  { s with view := computeView s.df s.filter_col s.filter_text s.sort_col s.sort_type }

/-- Concrete dataset of claim C3: one column `Gegenstand` with the rows
`Laptop`, `Maus`, `Tastatur`. -/
def dfG : Df :=
  ⟨["Gegenstand"], [[Value.vStr "Laptop"], [Value.vStr "Maus"], [Value.vStr "Tastatur"]]⟩

/-- Concrete dataset of claim C5: one column `Preis` with the values
`1200.50`, `25.00`, `75.99`, `"n/a"`. -/
def dfP : Df :=
  ⟨["Preis"],
   [[Value.vNum (mkDec 12005 1)], [Value.vNum (mkDec 25 0)],
    [Value.vNum (mkDec 7599 2)], [Value.vStr "n/a"]]⟩

/-- Concrete dataset of claim C4: one column `A` whose single row holds a
missing/null cell. -/
def dfN : Df := ⟨["A"], [[Value.vNull]]⟩

/-- A one-row, one-column dataset used to drive the history claims. -/
def cDf0 : Df := ⟨["A"], [[Value.vStr "x"]]⟩

/-- The dataset `cDf0` after a first cell edit. -/
def cDf1 : Df := ⟨["A"], [[Value.vStr "y"]]⟩

/-- The dataset `cDf0` after a second cell edit. -/
def cDf2 : Df := ⟨["A"], [[Value.vStr "z"]]⟩

/-- A committed ("clean") engine state: load `cDf0`, edit the cell to
`cDf1` the way the presentation layer does (main_window.py:284-287 calls
`push_state()` BEFORE writing into `logic.df` — here the push is suppressed
because nothing changed yet), then a second `push_state()` that commits the
edit, putting the serialized current dataset on top of the undo stack. -/
def sClean : AppState :=
  push_state { push_state (load_new_sheet cDf0 initState) with df := cDf1 }

/-- An engine state with an uncommitted edit, reached exactly as the
presentation layer reaches it: after `sClean`'s history, a further cell
edit runs `push_state()` first (committing `cDf1`) and only then writes
`cDf2` into the canonical dataset, so the newest edit is not on the undo
stack. -/
def sStale : AppState := { sClean with df := cDf2 }

/-- A state in which both `undo` and `redo` succeed: load `cDf0`, commit
two edits (`cDf1`, then `cDf2`, each written before its own committing
push as the caller alternates write/push), then undo once. -/
def sBoth : AppState :=
  (undo (push_state { push_state { load_new_sheet cDf0 initState with df := cDf1 } with df := cDf2 })).1

/-- The undo stack of `push_state` when the serialized dataset equals the
top entry: the push is suppressed and the state is returned unchanged
(app_logic.py:63). -/
theorem push_state_of_top (s : AppState)
    (h : s.undo_stack.head? = some (serializeDf s.df)) : push_state s = s := by
  unfold push_state pushStateWith
  simp [h]

/-- Characterization of `push_state` when the serialized dataset differs
from the top entry: append, clear the redo stack, trim to
`max_undo_steps`. -/
theorem push_state_of_ne (s : AppState)
    (h : ¬ s.undo_stack.head? = some (serializeDf s.df)) :
    push_state s =
      { s with
        undo_stack :=
          if (serializeDf s.df :: s.undo_stack).length > max_undo_steps then
            (serializeDf s.df :: s.undo_stack).dropLast
          else serializeDf s.df :: s.undo_stack,
        redo_stack := [] } := by
  unfold push_state pushStateWith
  simp [h]

/-- The two history stacks can never hold more than `max_undo_steps`
entries in total: only a successful push grows the total (to at most
`max_undo_steps`, trimming if needed), while `undo` and `redo` merely move
one entry between the stacks. -/
theorem reachable_sum_le (s : AppState) (h : Reachable s) :
    s.undo_stack.length + s.redo_stack.length ≤ max_undo_steps := by
  induction h with
  | load d s0 =>
    have h1 : (load_new_sheet d s0).undo_stack = [serializeDf d] := rfl
    have h2 : (load_new_sheet d s0).redo_stack = [] := rfl
    rw [h1, h2]
    simp [max_undo_steps]
  | push hr ih =>
    rename_i s1
    by_cases htop : s1.undo_stack.head? = some (serializeDf s1.df)
    · rw [push_state_of_top _ htop]; exact ih
    · rw [push_state_of_ne _ htop]
      simp only [List.length_cons, List.length_nil]
      split
      · rename_i hgt
        simp only [List.length_dropLast, List.length_cons]
        omega
      · rename_i hle
        simp only [List.length_cons] at hle ⊢
        omega
  | undoStep hr ih =>
    rename_i s1
    obtain ⟨d, v, us, rs, fc, ft, sc, st⟩ := s1
    match us with
    | [] => exact ih
    | [c] => exact ih
    | c :: p :: r =>
      simp only [undo, List.length_cons] at ih ⊢
      omega
  | redoStep hr ih =>
    rename_i s1
    obtain ⟨d, v, us, rs, fc, ft, sc, st⟩ := s1
    match rs with
    | [] => exact ih
    | t :: rr =>
      simp only [redo, List.length_cons] at ih ⊢
      omega
  | apply fc ft sc st hr ih => exact ih
  | reset hr ih => exact ih
  | mutate d hr ih => exact ih

/-- One undo followed by one redo restores the canonical dataset and both
stacks, provided the serialized dataset is on top of the undo stack (as it
is after every engine operation); only the view is (re)freshly computed. -/
theorem single_round (s : AppState)
    (hTop : s.undo_stack.head? = some (serializeDf s.df))
    (hLen : 2 ≤ s.undo_stack.length) :
    (redo (undo s).1).1 = refreshView s := by
  obtain ⟨d, v, us, rs, fc, ft, sc, st⟩ := s
  match us with
  | [] => simp at hTop
  | [c] => simp at hLen
  | c :: p :: r =>
    simp only [List.head?] at hTop
    simp only [Option.some.injEq] at hTop
    subst hTop
    rfl

/-- Refreshing the view changes neither `redo`'s decision nor its result
state (the view field is overwritten anyway on success). -/
theorem redo_refreshView (s : AppState) (h : s.redo_stack ≠ []) :
    (redo (refreshView s)).1 = (redo s).1 := by
  obtain ⟨d, v, us, rs, fc, ft, sc, st⟩ := s
  match rs with
  | [] => exact absurd rfl h
  | t :: rr => rfl

/-- Peeling an iterated redo from the outside. -/
theorem redoN_succ_outer (n : Nat) : ∀ s : AppState, redoN (n + 1) s = (redo (redoN n s)).1 := by
  induction n with
  | zero => intro s; rfl
  | succ m ih => intro s; exact ih (redo s).1

/-- Auxiliary round-trip law: from a state whose serialized dataset is on
top of the undo stack and whose undo stack holds at least `n + 2` entries,
`n + 1` undos followed by `n + 1` redos restore everything but the view,
which is freshly recomputed. -/
theorem round_trip_aux (n : Nat) : ∀ s : AppState,
    s.undo_stack.head? = some (serializeDf s.df) →
    n + 2 ≤ s.undo_stack.length →
    redoN (n + 1) (undoN (n + 1) s) = refreshView s := by
  induction n with
  | zero =>
    intro s hTop hLen
    exact single_round s hTop hLen
  | succ m ih =>
    intro s hTop hLen
    rw [show undoN (m + 2) s = undoN (m + 1) (undo s).1 from rfl,
      redoN_succ_outer (m + 1)]
    obtain ⟨d, v, us, rs, fc, ft, sc, st⟩ := s
    match us with
    | [] => simp at hTop
    | [c] => simp at hLen
    | c :: p :: r =>
      simp only [List.head?, Option.some.injEq] at hTop
      subst hTop
      have hu : (undo ⟨d, v, serializeDf d :: p :: r, rs, fc, ft, sc, st⟩).1 =
          ⟨deserialize p, computeView (deserialize p) fc ft sc st, p :: r,
            serializeDf d :: rs, fc, ft, sc, st⟩ := rfl
      rw [hu]
      have hTop2 : (⟨deserialize p, computeView (deserialize p) fc ft sc st, p :: r,
          serializeDf d :: rs, fc, ft, sc, st⟩ : AppState).undo_stack.head? =
          some (serializeDf (⟨deserialize p, computeView (deserialize p) fc ft sc st,
            p :: r, serializeDf d :: rs, fc, ft, sc, st⟩ : AppState).df) := rfl
      have hLen2 : m + 2 ≤ (⟨deserialize p, computeView (deserialize p) fc ft sc st,
          p :: r, serializeDf d :: rs, fc, ft, sc, st⟩ : AppState).undo_stack.length := by
        simp only [List.length_cons] at hLen ⊢
        omega
      rw [ih _ hTop2 hLen2]
      rw [redo_refreshView _ (by simp)]
      rfl

/-- Claim C1 (amended): whenever the serialized canonical dataset equals
the top of the undo stack — which holds after every engine operation and
fails only between the caller's `push_state()` and its subsequent direct
write into `logic.df` — performing `N` successful `undo()` calls
(`1 ≤ N ≤ undo-stack depth − 1`) immediately followed by `N` `redo()`
calls leaves the canonical dataset equal to its state before the first
undo. -/
theorem claim_C1_round_trip (N : Nat) (s : AppState)
    (hTop : s.undo_stack.head? = some (serializeDf s.df))
    (hpos : 1 ≤ N) (hN : N ≤ s.undo_stack.length - 1) :
    (redoN N (undoN N s)).df = s.df := by
  obtain ⟨m, rfl⟩ : ∃ m, N = m + 1 := ⟨N - 1, by omega⟩
  have hne : s.undo_stack ≠ [] := by
    intro hnil
    rw [hnil] at hTop
    simp at hTop
  have hlen : m + 2 ≤ s.undo_stack.length := by
    have := List.length_pos.mpr hne
    omega
  rw [round_trip_aux m s hTop hlen]
  rfl

/-- Witness for C1: in the committed two-entry state `sClean`, one undo
followed by one redo restores the canonical dataset. -/
theorem claim_C1_round_trip_witness :
    sClean.undo_stack.head? = some (serializeDf sClean.df) ∧ 1 ≤ 1 ∧
      1 ≤ sClean.undo_stack.length - 1 ∧
      (redoN 1 (undoN 1 sClean)).df = sClean.df :=
  ⟨by decide, by decide, by decide,
    claim_C1_round_trip 1 sClean (by decide) (by decide) (by decide)⟩

/-- Counterexample to C1 as stated: the claim fails on a reachable state.
The presentation layer calls `push_state()` BEFORE writing the edited cell
into the canonical dataset (main_window.py:284-287), so in `sStale` the
newest edit (`cDf2`) is not on the undo stack; a successful undo (with
`N = 1 ≤ depth − 1`) followed by a successful redo lands on the previously
committed dataset `cDf1`, not on the pre-undo dataset `cDf2`. -/
theorem claim_C1_round_trip_counterexample :
    Reachable sStale ∧ (undo sStale).2 = true ∧
      (redo (undo sStale).1).2 = true ∧ 1 ≤ sStale.undo_stack.length - 1 ∧
      (redoN 1 (undoN 1 sStale)).df ≠ sStale.df :=
  ⟨Reachable.mutate cDf2
      (Reachable.push (Reachable.mutate cDf1 (Reachable.load cDf0 initState))),
    by decide, by decide, by decide, by decide⟩

/-- Claim C3 counterexample: filtering column `Gegenstand` of
`["Laptop", "Maus", "Tastatur"]` with the text `"ax"` yields an empty
view, not the claimed single `"Laptop"` row — none of the three
lower-cased values contains `"ax"` as a substring. -/
theorem claim_C3_filter_counterexample :
    (apply_filters_and_sort (some "Gegenstand") (some "ax") none none
        (load_new_sheet dfG initState)).view.rows = [] ∧
      (apply_filters_and_sort (some "Gegenstand") (some "ax") none none
        (load_new_sheet dfG initState)).view.rows.length ≠ 1 := by
  constructor
  · decide
  · decide

/-- Claim C3 (amended): filtering column `Gegenstand` of
`["Laptop", "Maus", "Tastatur"]` with the text `"ap"` yields exactly the
`"Laptop"` row, and filtering with empty text yields all rows
unchanged. -/
theorem claim_C3_filter :
    (apply_filters_and_sort (some "Gegenstand") (some "ap") none none
        (load_new_sheet dfG initState)).view.rows = [[Value.vStr "Laptop"]] ∧
      (apply_filters_and_sort (some "Gegenstand") (some "") none none
        (load_new_sheet dfG initState)).view = dfG := by
  constructor
  · decide
  · decide

/-- Claim C4 is right about the intent but the code violates it: with the
existing filter column `A` set and the non-empty filter text `"nan"`, the
row whose `A`-cell is missing/null IS kept, because line 128 of
app_logic.py converts the column with `astype(str)` (null becomes the
string `"nan"`) before `.str.contains(..., na=False)`, leaving the
`na=False` guard without effect. -/
theorem claim_C4_null_kept :
    (apply_filters_and_sort (some "A") (some "nan") none none
        (load_new_sheet dfN initState)).view.rows = [[Value.vNull]] := by
  decide

/-- Claim C5 counterexample: after a numeric-ascending sort on `Preis`,
the view's value sequence is NOT `[25.00, 75.99, 1200.50, "n/a"]` — the
sort overwrites the column with `pd.to_numeric(..., errors='coerce')`
(app_logic.py:151), so the `"n/a"` cell reads as the missing sentinel
`NaN` in the view. -/
theorem claim_C5_sort_counterexample :
    (apply_filters_and_sort none none (some "Preis") (some "num_asc")
        (load_new_sheet dfP initState)).view.rows ≠
      [[Value.vNum (mkDec 25 0)], [Value.vNum (mkDec 7599 2)],
        [Value.vNum (mkDec 12005 1)], [Value.vStr "n/a"]] := by
  decide

/-- Claim C5 (amended): numeric-ascending sort on `Preis` with values
`[1200.50, 25.00, 75.99, "n/a"]` yields the row order
`[25.00, 75.99, 1200.50, NaN]` and numeric-descending yields
`[1200.50, 75.99, 25.00, NaN]`: the unconvertible `"n/a"` row sorts last
regardless of direction, but its cell appears in the view as the missing
sentinel `NaN` (the sort coerced the column in place), not as `"n/a"`. -/
theorem claim_C5_sort :
    (apply_filters_and_sort none none (some "Preis") (some "num_asc")
        (load_new_sheet dfP initState)).view.rows =
      [[Value.vNum (mkDec 25 0)], [Value.vNum (mkDec 7599 2)],
        [Value.vNum (mkDec 12005 1)], [Value.vNull]] ∧
      (apply_filters_and_sort none none (some "Preis") (some "num_desc")
        (load_new_sheet dfP initState)).view.rows =
      [[Value.vNum (mkDec 12005 1)], [Value.vNum (mkDec 7599 2)],
        [Value.vNum (mkDec 25 0)], [Value.vNull]] := by
  constructor
  · decide
  · decide

/-- Claim C6: in every reachable engine state the undo stack holds at most
`max_undo_steps` (50) entries, and when a push from a full stack appends a
new serialized state, the evicted entry is the oldest one — python
`pop(0)`, i.e. the last entry of the head-first list (FIFO eviction). -/
theorem claim_C6_bounded_history (s : AppState) (h : Reachable s) :
    s.undo_stack.length ≤ max_undo_steps ∧
      (s.undo_stack.head? ≠ some (serializeDf s.df) →
        max_undo_steps ≤ s.undo_stack.length →
        (push_state s).undo_stack = serializeDf s.df :: s.undo_stack.dropLast) := by
  constructor
  · have := reachable_sum_le s h
    omega
  · intro hne hlen
    rw [push_state_of_ne _ hne]
    have hgt : (serializeDf s.df :: s.undo_stack).length > max_undo_steps := by
      simp only [List.length_cons]
      omega
    simp only [if_pos hgt]
    obtain ⟨d, v, us, rs, fc, ft, sc, st⟩ := s
    match us with
    | [] => simp [max_undo_steps] at hlen
    | b :: t => rfl

/-- Witness for C6: the freshly loaded state is reachable; its undo stack
is within the bound and the eviction equation holds vacuously there. -/
theorem claim_C6_bounded_history_witness :
    (load_new_sheet cDf0 initState).undo_stack.length ≤ max_undo_steps ∧
      ((load_new_sheet cDf0 initState).undo_stack.head? ≠
          some (serializeDf (load_new_sheet cDf0 initState).df) →
        max_undo_steps ≤ (load_new_sheet cDf0 initState).undo_stack.length →
        (push_state (load_new_sheet cDf0 initState)).undo_stack =
          serializeDf (load_new_sheet cDf0 initState).df ::
            (load_new_sheet cDf0 initState).undo_stack.dropLast) :=
  claim_C6_bounded_history (load_new_sheet cDf0 initState)
    (Reachable.load cDf0 initState)

/-- Claim C7: `push_state` is idempotent — with no intervening mutation of
the canonical dataset, a second call finds its serialization on top of the
undo stack and changes nothing (the comparison at app_logic.py:63
suppresses the duplicate push). -/
theorem claim_C7_push_idempotent (s : AppState) :
    push_state (push_state s) = push_state s := by
  by_cases h : s.undo_stack.head? = some (serializeDf s.df)
  · rw [push_state_of_top s h, push_state_of_top s h]
  · apply push_state_of_top
    rw [push_state_of_ne s h]
    show (if (serializeDf s.df :: s.undo_stack).length > max_undo_steps then
        (serializeDf s.df :: s.undo_stack).dropLast
      else serializeDf s.df :: s.undo_stack).head? = some (serializeDf s.df)
    split
    · rename_i hgt
      obtain ⟨d, v, us, rs, fc, ft, sc, st⟩ := s
      match us with
      | [] => simp [max_undo_steps] at hgt
      | b :: t => rfl
    · rfl

/-- Claim C8: a successful push (the serialized dataset differs from the
top of the undo stack, or the stack is empty) clears the redo stack; a
suppressed push returns the state unchanged, so in particular the redo
stack is untouched. -/
theorem claim_C8_redo_cleared (s : AppState) :
    (s.undo_stack.head? ≠ some (serializeDf s.df) →
        (push_state s).redo_stack = []) ∧
      (s.undo_stack.head? = some (serializeDf s.df) → push_state s = s) := by
  constructor
  · intro h
    rw [push_state_of_ne s h]
  · exact push_state_of_top s

/-- Witness for C8: in the initial state the undo stack is empty, so the
push succeeds and leaves an empty redo stack. -/
theorem claim_C8_redo_cleared_witness : (push_state initState).redo_stack = [] :=
  (claim_C8_redo_cleared initState).1 (by decide)

/-- Claim C9: if serializing the canonical dataset fails during
`push_state`, the exception is caught inside the method (app_logic.py:70
only logs it), and the returned state — undo stack, redo stack and the
canonical dataset itself — is exactly the input state. -/
theorem claim_C9_serialize_failure (ser : Df → Option Token) (s : AppState)
    (h : ser s.df = none) : pushStateWith ser s = s := by
  unfold pushStateWith
  rw [h]

/-- Witness for C9: a serializer that always fails leaves the initial
state untouched. -/
theorem claim_C9_serialize_failure_witness :
    pushStateWith (fun _ => none) initState = initState :=
  claim_C9_serialize_failure (fun _ => none) initState rfl

/-- Claim C10: `undo` and `redo` never change the four active view
criteria, and whenever they succeed the view they leave behind is
recomputed from the restored canonical dataset under those same
criteria. -/
theorem claim_C10_criteria_frame (s : AppState) :
    (undo s).1.filter_col = s.filter_col ∧
      (undo s).1.filter_text = s.filter_text ∧
      (undo s).1.sort_col = s.sort_col ∧
      (undo s).1.sort_type = s.sort_type ∧
      (redo s).1.filter_col = s.filter_col ∧
      (redo s).1.filter_text = s.filter_text ∧
      (redo s).1.sort_col = s.sort_col ∧
      (redo s).1.sort_type = s.sort_type ∧
      ((undo s).2 = true →
        (undo s).1.view = computeView (undo s).1.df s.filter_col s.filter_text
          s.sort_col s.sort_type) ∧
      ((redo s).2 = true →
        (redo s).1.view = computeView (redo s).1.df s.filter_col s.filter_text
          s.sort_col s.sort_type) := by
  obtain ⟨d, v, us, rs, fc, ft, sc, st⟩ := s
  match us, rs with
  | [], [] =>
    exact ⟨rfl, rfl, rfl, rfl, rfl, rfl, rfl, rfl,
      fun h => Bool.noConfusion h, fun h => Bool.noConfusion h⟩
  | [], t :: rr =>
    exact ⟨rfl, rfl, rfl, rfl, rfl, rfl, rfl, rfl,
      fun h => Bool.noConfusion h, fun _ => rfl⟩
  | [c], [] =>
    exact ⟨rfl, rfl, rfl, rfl, rfl, rfl, rfl, rfl,
      fun h => Bool.noConfusion h, fun h => Bool.noConfusion h⟩
  | [c], t :: rr =>
    exact ⟨rfl, rfl, rfl, rfl, rfl, rfl, rfl, rfl,
      fun h => Bool.noConfusion h, fun _ => rfl⟩
  | c :: p :: r, [] =>
    exact ⟨rfl, rfl, rfl, rfl, rfl, rfl, rfl, rfl,
      fun _ => rfl, fun h => Bool.noConfusion h⟩
  | c :: p :: r, t :: rr =>
    exact ⟨rfl, rfl, rfl, rfl, rfl, rfl, rfl, rfl,
      fun _ => rfl, fun _ => rfl⟩

/-- Witness for C10: in `sBoth` both `undo` and `redo` succeed and both
views are recomputed from the respective restored datasets under the
state's criteria. -/
theorem claim_C10_criteria_frame_witness :
    (undo sBoth).1.view = computeView (undo sBoth).1.df sBoth.filter_col
        sBoth.filter_text sBoth.sort_col sBoth.sort_type ∧
      (redo sBoth).1.view = computeView (redo sBoth).1.df sBoth.filter_col
        sBoth.filter_text sBoth.sort_col sBoth.sort_type :=
  ⟨((claim_C10_criteria_frame sBoth).2.2.2.2.2.2.2.2.1) (by decide),
    ((claim_C10_criteria_frame sBoth).2.2.2.2.2.2.2.2.2) (by decide)⟩
